import Mathlib

/-!
Verification development for the Snow Day resort-ranking pipeline.

The repository ships the frontend dashboard (`frontend/src/App.tsx`) together
with documentation of the backend pipeline (collection, storage, scoring,
summarization).  The backend modules themselves are not part of the source
tree available here, so those components are modelled from the design
specification; every such definition carries a doc comment starting with
`Modelled from the spec:`.  Frontend definitions are transcribed from
`App.tsx` directly.

Numbers are modelled as rationals (`ℚ`); timestamps as naturals.
-/

namespace SnowDay

/-- Modelled from the spec: `ConditionRecord` (§3) — canonical snapshot of one
resort's conditions.  Identity fields are mandatory; every measurement is
optional, absence meaning "not reported", never zero. -/
structure ConditionRecord where
  resort_id : String
  name : String
  state : String
  timestamp : Nat
  wind_speed : Option ℚ := none
  wind_chill : Option ℚ := none
  temp_min : Option ℚ := none
  temp_max : Option ℚ := none
  snowfall_12h : Option ℚ := none
  snowfall_24h : Option ℚ := none
  snowfall_7d : Option ℚ := none
  base_depth : Option ℚ := none
  precip_type : Option String := none
  is_operational : Option Bool := none
  lifts_open : Option Nat := none
  lifts_total : Option Nat := none
  trails_open : Option Nat := none
  trails_total : Option Nat := none
deriving DecidableEq

/-- Modelled from the spec: ingestion invariant (§3) — negative measurement
values are invalid and rejected at ingestion, and `open ≤ total` whenever both
are present.  This delimits the data model's legal value space. -/
def validRec (r : ConditionRecord) : Bool :=
  r.wind_speed.all (fun v => decide (0 ≤ v)) &&
  r.snowfall_12h.all (fun v => decide (0 ≤ v)) &&
  r.snowfall_24h.all (fun v => decide (0 ≤ v)) &&
  r.snowfall_7d.all (fun v => decide (0 ≤ v)) &&
  r.base_depth.all (fun v => decide (0 ≤ v)) &&
  (match r.lifts_open, r.lifts_total with
   | some o, some t => decide (o ≤ t)
   | _, _ => true) &&
  (match r.trails_open, r.trails_total with
   | some o, some t => decide (o ≤ t)
   | _, _ => true)

/-- Modelled from the spec: `ScoreResult` (§3) — numeric score, ordered
sequence of rationale clauses, and the derived `powder`/`icy` flags. -/
structure ScoreResult where
  score : ℚ
  rationale : List String
  powder : Bool
  icy : Bool
deriving DecidableEq

namespace ScoringEngine

/-- Modelled from the spec: tunable scoring configuration defaults (§4.4 and
the open question of §9 — exact weights are policy parameters; these are the
documented defaults used by this model). -/
def baselineScore : ℚ := 40

/-- Modelled from the spec: powder threshold — `powder` is true when recent
snowfall exceeds this amount (§3). -/
def powderThreshold : ℚ := 6

/-- Modelled from the spec: icy-risk signal requires recent snowfall below
this amount together with a freeze-thaw swing (§3, §4.4). -/
def icySnowThreshold : ℚ := 2

/-- Modelled from the spec: freeze point used for the freeze-thaw swing. -/
def freezePoint : ℚ := 32

/-- Modelled from the spec: wind below this speed carries no penalty. -/
def windComfort : ℚ := 10

/-- Modelled from the spec: the wind penalty is capped so that an open resort
can never be dragged to or below the closed-resort score. -/
def windPenaltyCap : ℚ := 15

/-- Modelled from the spec: flat penalty applied when the icy flag is set. -/
def icyPenaltyAmount : ℚ := 10

/-- Modelled from the spec: minimum-significance threshold for a factor to
earn a rationale clause (§4.4). -/
def sigThreshold : ℚ := 1

/-- Modelled from the spec: concave (diminishing-returns) transform for
snowfall terms (§4.4) — full weight up to `cap`, the strictly smaller
`beyond` weight past it, so the marginal value of snow decreases. -/
def concave (cap weight beyond x : ℚ) : ℚ :=
  if x ≤ cap then weight * x else weight * cap + beyond * (x - cap)

/-- Modelled from the spec: a missing measurement contributes zero to a
scoring term (§4.4 — never imputed, never treated as bad data). -/
def optTerm (f : ℚ → ℚ) : Option ℚ → ℚ
  | none => 0
  | some x => f x

/-- Modelled from the spec: additive 12-hour snowfall bonus (§4.4). -/
def snowBonus12 : Option ℚ → ℚ := optTerm (concave 6 3 1)

/-- Modelled from the spec: additive 24-hour snowfall bonus (§4.4). -/
def snowBonus24 : Option ℚ → ℚ := optTerm (concave 12 2 1)

/-- Modelled from the spec: additive 7-day snowfall bonus (§4.4). -/
def snowBonus7d : Option ℚ → ℚ := optTerm (concave 30 1 0)

/-- Modelled from the spec: penalty for one reported wind speed — zero in
the comfort range, then linear, capped at `windPenaltyCap` (§4.4). -/
def windPenaltyVal (w : ℚ) : ℚ :=
  if w ≤ windComfort then 0
  else if w - windComfort ≤ windPenaltyCap then w - windComfort
  else windPenaltyCap

/-- Modelled from the spec: capped penalty for high wind speed (§4.4). -/
def windPenalty : Option ℚ → ℚ := optTerm windPenaltyVal

/-- Modelled from the spec: `powder` is true when reported recent snowfall
exceeds the powder threshold; an absent report never triggers it (§3). -/
def powderFlag (r : ConditionRecord) : Bool :=
  decide (powderThreshold < r.snowfall_24h.getD 0) ||
  decide (powderThreshold < r.snowfall_12h.getD 0)

/-- Modelled from the spec: the low-recent-snow half of the icy signal; only
a reported low snowfall counts — absent data is never treated as bad (§4.4). -/
def lowRecentSnow (r : ConditionRecord) : Bool :=
  match r.snowfall_24h with
  | some s => decide (s < icySnowThreshold)
  | none =>
    match r.snowfall_12h with
    | some s => decide (s < icySnowThreshold)
    | none => false

/-- Modelled from the spec: freeze-thaw temperature swing — both extremes
must be reported and straddle the freeze point (§3, §4.4). -/
def freezeThaw (r : ConditionRecord) : Bool :=
  match r.temp_min, r.temp_max with
  | some lo, some hi => decide (lo < freezePoint) && decide (freezePoint < hi)
  | _, _ => false

/-- Modelled from the spec: `icy` flag; when both the powder and the icy
signal conditions hold, powder is prioritized, making the two flags mutually
exclusive by construction (§3). -/
def icyFlag (r : ConditionRecord) : Bool :=
  lowRecentSnow r && freezeThaw r && !powderFlag r

/-- Modelled from the spec: flat icy penalty term (§4.4). -/
def icyPenalty (r : ConditionRecord) : ℚ :=
  if icyFlag r then icyPenaltyAmount else 0

/-- Modelled from the spec: score of an operational resort — baseline plus
concave snowfall bonuses minus wind and icy penalties (§4.4). -/
def openScore (r : ConditionRecord) : ℚ :=
  baselineScore + snowBonus12 r.snowfall_12h + snowBonus24 r.snowfall_24h +
    snowBonus7d r.snowfall_7d - windPenalty r.wind_speed - icyPenalty r

/-- Modelled from the spec: rationale clause stating closure plainly (§4.4). -/
def closureClause : String := "Resort is reported closed"

/-- Modelled from the spec: neutral baseline clause used when no factor
qualifies (§3 — rationale is never empty). -/
def baselineClause : String := "Baseline conditions with no standout factors"

/-- Modelled from the spec: rationale clause for a 24-hour snowfall factor
(example clause shape of §3: "18in of fresh snow in 24h"). -/
def clause24 (s : ℚ) : String := toString s ++ "in of fresh snow in 24h"

/-- Modelled from the spec: rationale clause for a 12-hour snowfall factor. -/
def clause12 (s : ℚ) : String := toString s ++ "in of fresh snow in 12h"

/-- Modelled from the spec: rationale clause for a 7-day snowfall factor. -/
def clause7d (s : ℚ) : String := toString s ++ "in of snow over 7 days"

/-- Modelled from the spec: rationale clause for a high-wind hazard. -/
def windClause (w : ℚ) : String := "High wind at " ++ toString w ++ " mph"

/-- Modelled from the spec: rationale clause for the icy hazard. -/
def icyClause : String := "Icy refrozen surface risk"

/-- Modelled from the spec: snowfall clauses — every snowfall factor whose
contribution reaches the minimum-significance threshold, 24h first (§4.4). -/
def snowClauses (r : ConditionRecord) : List String :=
  (match r.snowfall_24h with
   | some s => if sigThreshold ≤ snowBonus24 (some s) then [clause24 s] else []
   | none => []) ++
  (match r.snowfall_12h with
   | some s => if sigThreshold ≤ snowBonus12 (some s) then [clause12 s] else []
   | none => []) ++
  (match r.snowfall_7d with
   | some s => if sigThreshold ≤ snowBonus7d (some s) then [clause7d s] else []
   | none => [])

/-- Modelled from the spec: hazard clauses — wind, then icy (§4.4). -/
def hazardClauses (r : ConditionRecord) : List String :=
  (match r.wind_speed with
   | some w => if sigThreshold ≤ windPenaltyVal w then [windClause w] else []
   | none => []) ++
  (if icyFlag r then [icyClause] else [])

/-- Modelled from the spec: when no factor qualifies, the rationale falls
back to the neutral baseline note (§4.4). -/
def withBaseline (factors : List String) : List String :=
  if factors.isEmpty then [baselineClause] else factors

/-- Modelled from the spec: rationale assembly in fixed priority order —
closure status first, then snowfall, then hazards, then the baseline note if
no factor qualifies (§4.4); the result is never empty. -/
def rationaleOf (r : ConditionRecord) : List String :=
  withBaseline
    ((if r.is_operational = some false then [closureClause] else []) ++
      snowClauses r ++ hazardClauses r)

/-- Modelled from the spec: `ScoringEngine.score` (§4.4) — a pure total
function from a `ConditionRecord` to a `ScoreResult`; a closed resort gets
the near-zero closed score regardless of its snow metrics. -/
def score (r : ConditionRecord) : ScoreResult :=
  { score := if r.is_operational = some false then 0 else openScore r
    rationale := rationaleOf r
    powder := powderFlag r
    icy := icyFlag r }

end ScoringEngine

/-- Modelled from the spec: `ScoredResort` (§3) — join of resort identity,
latest `ConditionRecord` and `ScoreResult`. -/
structure ScoredResort where
  resort_id : String
  name : String
  state : String
  conditions : ConditionRecord
  result : ScoreResult
deriving DecidableEq

/-- Lexicographic comparison of identifier characters by code point —
the ascending string order used for deterministic tie-breaking. -/
def idLeChars : List Char → List Char → Bool
  | [], _ => true
  | _ :: _, [] => false
  | c :: cs, d :: ds =>
    if c.val.toNat < d.val.toNat then true
    else if d.val.toNat < c.val.toNat then false
    else idLeChars cs ds

/-- Ascending lexicographic order on resort identifiers. -/
def idLe (a b : String) : Bool := idLeChars a.data b.data

/-- Modelled from the spec: ranking order (§3) — descending score, ties
broken by `resort_id` ascending for determinism. -/
def rankLE (a b : ScoredResort) : Prop :=
  b.result.score < a.result.score ∨
    (a.result.score = b.result.score ∧ idLe a.resort_id b.resort_id = true)

instance : DecidableRel rankLE := fun a b =>
  inferInstanceAs (Decidable (b.result.score < a.result.score ∨
    (a.result.score = b.result.score ∧ idLe a.resort_id b.resort_id = true)))

instance : IsTotal ScoredResort rankLE where
  total a b := by
    have htot : ∀ x y : List Char, idLeChars x y = true ∨ idLeChars y x = true := by
      intro x
      induction x with
      | nil => intro y; exact Or.inl rfl
      | cons c cs ih =>
        intro y
        cases y with
        | nil => exact Or.inr rfl
        | cons d ds =>
          by_cases h1 : c.val.toNat < d.val.toNat
          · exact Or.inl (by simp [idLeChars, h1])
          · by_cases h2 : d.val.toNat < c.val.toNat
            · exact Or.inr (by simp [idLeChars, h1, h2])
            · rcases ih ds with hcd | hdc
              · exact Or.inl (by simp [idLeChars, h1, h2, hcd])
              · exact Or.inr (by simp [idLeChars, h1, h2, hdc])
    rcases lt_trichotomy a.result.score b.result.score with h | h | h
    · exact Or.inr (Or.inl h)
    · rcases htot a.resort_id.data b.resort_id.data with hid | hid
      · exact Or.inl (Or.inr ⟨h, hid⟩)
      · exact Or.inr (Or.inr ⟨h.symm, hid⟩)
    · exact Or.inl (Or.inl h)

instance : IsTrans ScoredResort rankLE where
  trans a b c hab hbc := by
    have htr : ∀ x y z : List Char, idLeChars x y = true → idLeChars y z = true →
        idLeChars x z = true := by
      intro x
      induction x with
      | nil => intro y z _ _; rfl
      | cons p ps ih =>
        intro y z hxy hyz
        cases y with
        | nil => simp [idLeChars] at hxy
        | cons q qs =>
          cases z with
          | nil => simp [idLeChars] at hyz
          | cons r rs =>
            simp only [idLeChars] at hxy hyz ⊢
            split_ifs at hxy with h1 h2
            · split_ifs at hyz with h3 h4
              · simp [show p.val.toNat < r.val.toNat by omega]
              · simp [show p.val.toNat < r.val.toNat by omega]
            · split_ifs at hyz with h3 h4
              · simp [show p.val.toNat < r.val.toNat by omega]
              · have hnlt : ¬p.val.toNat < r.val.toNat := by omega
                have hnlt2 : ¬r.val.toNat < p.val.toNat := by omega
                simp only [hnlt, hnlt2, if_false]
                exact ih qs rs hxy hyz
    rcases hab with hab | ⟨heq, hid⟩ <;> rcases hbc with hbc | ⟨heq2, hid2⟩
    · exact Or.inl (hbc.trans hab)
    · exact Or.inl (heq2 ▸ hab)
    · exact Or.inl (heq.symm ▸ hbc)
    · exact Or.inr ⟨heq.trans heq2, htr _ _ _ hid hid2⟩

/-- Modelled from the spec: sorting step producing the `rankings` field. -/
def rankResorts (l : List ScoredResort) : List ScoredResort :=
  l.insertionSort rankLE

/-- Modelled from the spec: `RankingsResponse` (§3). -/
structure RankingsResponse where
  updated_at : Option Nat
  rankings : List ScoredResort
  summary : String

/-- Modelled from the spec: construction of a `RankingsResponse` from the
scored snapshot set — the `rankings` field is the sorted sequence (§3). -/
def mkRankingsResponse (updated_at : Option Nat) (scored : List ScoredResort)
    (summary : String) : RankingsResponse :=
  { updated_at := updated_at, rankings := rankResorts scored, summary := summary }

/-- Modelled from the spec: `ConditionStore` state (§4.3) — the latest
snapshot per `resort_id`. -/
def ConditionStore : Type := String → Option ConditionRecord

/-- Modelled from the spec: the store before any write. -/
def emptyStore : ConditionStore := fun _ => none

/-- Modelled from the spec: the per-resort freshness rule (§4.3) — the
incoming record replaces the stored one only if its timestamp is newer than
or equal to the stored timestamp; a stale record is silently discarded. -/
def freshnessMerge (old : Option ConditionRecord) (r : ConditionRecord) :
    Option ConditionRecord :=
  match old with
  | none => some r
  | some o => if o.timestamp ≤ r.timestamp then some r else some o

/-- Modelled from the spec: `ConditionStore.upsert` (§4.3) — applies the
freshness rule to the slot of `r.resort_id` and leaves every other resort
untouched (a total function, never an error). -/
def upsert (s : ConditionStore) (r : ConditionRecord) : ConditionStore :=
  fun id => if id = r.resort_id then freshnessMerge (s id) r else s id

/-- Modelled from the spec: `CollectionError` taxonomy (§7). -/
inductive CollectionError where
  | Unreachable
  | ParseFailure
  | Timeout
  | InvalidData
deriving DecidableEq

deriving instance DecidableEq for Except

/-- Modelled from the spec: a `SourceAdapter` (§4.1) as its observable
behaviour for one collection run — a resort identity together with the
outcome it delivers: a `ConditionRecord` or a `CollectionError` (an adapter
that never returns is cut off as a `Timeout` failure). -/
structure SourceAdapter where
  resort_id : String
  outcome : Except CollectionError ConditionRecord
deriving DecidableEq

/-- Modelled from the spec: discriminator for a successful adapter outcome. -/
def resultOk : Except CollectionError ConditionRecord → Bool
  | .ok _ => true
  | .error _ => false

/-- Modelled from the spec: `Collector.run` (§4.2) — runs every registered
adapter and aggregates a partial result pairing each `resort_id` with either
its record or its recorded error; each entry depends only on its own
adapter. -/
def Collector.run (adapters : List SourceAdapter) :
    List (String × Except CollectionError ConditionRecord) :=
  adapters.map fun a => (a.resort_id, a.outcome)

/-- Modelled from the spec: outcome of one generative-backend call (§4.5) —
free-form text, or a failure (network/non-success), or a timeout. -/
inductive BackendOutcome where
  | ok (text : String)
  | failure
  | timeout

/-- Modelled from the spec: the fixed "no data" sentence (§4.5). -/
def noDataSentence : String := "No resort data is available yet."

/-- Modelled from the spec: deterministic rule-based fallback (§4.5) — names
the top resort and concatenates its rationale clauses; total and never
empty. -/
def fallbackSummary : List ScoredResort → String
  | [] => noDataSentence
  | top :: _ =>
    "Top pick: " ++ top.name ++ ". " ++ String.intercalate "; " top.result.rationale

/-- Modelled from the spec: `Summarizer` (§4.5) — primary generative path
with fallback on failure or timeout; a blank completion is a
`MalformedResponse` (§7) and also falls back; an empty resort sequence
short-circuits to the fixed "no data" sentence. -/
def summarize (resorts : List ScoredResort) (outcome : BackendOutcome) : String :=
  match resorts with
  | [] => noDataSentence
  | _ :: _ =>
    match outcome with
    | .ok text => if text = "" then fallbackSummary resorts else text
    | .failure => fallbackSummary resorts
    | .timeout => fallbackSummary resorts

/-- Decides whether `pat` is an initial segment of `cs`. -/
def startsWithChars : List Char → List Char → Bool
  | [], _ => true
  | _ :: _, [] => false
  | p :: ps, c :: cs => p == c && startsWithChars ps cs

/-- Decides whether `pat` occurs contiguously somewhere in the list. -/
def hasSubChars (pat : List Char) : List Char → Bool
  | [] => startsWithChars pat []
  | c :: cs => startsWithChars pat (c :: cs) || hasSubChars pat cs

/-- Decidable check that a clause mentions snow: the characters of "snow"
occur contiguously in the clause. -/
def mentionsSnow (c : String) : Bool := hasSubChars "snow".data c.data

/-! Frontend definitions, transcribed from `frontend/src/App.tsx`. -/

/-- From `App.tsx` (type `Ranking`): one entry of the rankings payload as the
frontend consumes it. -/
structure Ranking where
  resort_id : String
  name : String
  state : String
  score : ℚ
  rationale : String
  powder : Bool
  icy : Bool
  conditions : ConditionRecord
deriving DecidableEq

/-- From `App.tsx`: the em-dash placeholder rendered for missing numbers. -/
def emDash : String := "—"

/-- From `App.tsx` (`value.toFixed(1)`): renders a number with one decimal
digit (rounding of exact halves approximates the float behaviour; the claims
verified here only touch the absent branch of `formatNumber`). -/
def toFixed1 (v : ℚ) : String :=
  let n : Int := round (v * 10)
  let sign := if n < 0 then "-" else ""
  sign ++ toString (n.natAbs / 10) ++ "." ++ toString (n.natAbs % 10)

/-- From `App.tsx` (`formatNumber`): an absent value renders as the em dash;
a present value renders with one decimal digit plus the suffix. -/
def formatNumber (value : Option ℚ) (suffix : String) : String :=
  match value with
  | none => emDash
  | some v => toFixed1 v ++ suffix

/-- From `App.tsx` (`resolveStatus` result shape). -/
structure StatusInfo where
  label : String
  badge : String
  description : String
deriving DecidableEq

/-- From `App.tsx` (`resolveStatus`): `true` is Open, `false` is Closed, an
absent flag is Unknown. -/
def resolveStatus (flag : Option Bool) : StatusInfo :=
  match flag with
  | some true =>
    { label := "Open", badge := "bg-emerald-500/20 text-emerald-50",
      description := "Reported open by the resort" }
  | some false =>
    { label := "Closed", badge := "bg-rose-500/20 text-rose-50",
      description := "Reported closed by the resort" }
  | none =>
    { label := "Unknown", badge := "bg-amber-500/20 text-amber-50",
      description := "No official status reported yet" }

/-- From `App.tsx` (`groupedByState` accumulator): the record initialized
with exactly the three groups NH, VT, ME. -/
structure StateGroups where
  NH : List Ranking
  VT : List Ranking
  ME : List Ranking
deriving DecidableEq

/-- From `App.tsx` (`groupedByState` loop body): pushes a resort onto its
state's group only when that group exists — every other state is dropped. -/
def groupStep (g : StateGroups) (r : Ranking) : StateGroups :=
  if r.state = "NH" then { g with NH := g.NH ++ [r] }
  else if r.state = "VT" then { g with VT := g.VT ++ [r] }
  else if r.state = "ME" then { g with ME := g.ME ++ [r] }
  else g

/-- From `App.tsx` (`groupedByState`): fold over the filtered resorts,
starting from the record initialized with exactly the NH, VT, ME groups. -/
def groupedByState (filtered : List Ranking) : StateGroups :=
  filtered.foldl groupStep { NH := [], VT := [], ME := [] }

/-- From `App.tsx` (All Resorts view, `all` filter): the grouped display
iterates the states NH, VT, ME in order and shows each group's resorts;
with the `all` filter, `filteredResorts` is the full rankings list. -/
def allViewDisplayed (rankings : List Ranking) : List Ranking :=
  let g := groupedByState rankings
  g.NH ++ g.VT ++ g.ME

/-- From `App.tsx`: the component state touched by `fetchRankings`. -/
structure AppState where
  rankings : List Ranking
  summary : String
  updatedAt : Option String
  loading : Bool
  refreshing : Bool
deriving DecidableEq

/-- From `App.tsx` (`RankingsResponse` as parsed JSON): fields may be
missing, hence the `?? []` and `?? ''` defaults at the use site. -/
structure RankingsPayload where
  updated_at : Option String
  rankings : Option (List Ranking)
  summary : Option String

/-- From `App.tsx`: outcome of one `fetch` + `response.json()` round trip —
parsed payload, or a thrown error (network failure or non-JSON body). -/
inductive FetchOutcome where
  | success (data : RankingsPayload)
  | failure

/-- From `App.tsx` (catch branch of `fetchRankings`): the fixed sentence
shown when the API is unreachable. -/
def apiErrorMessage : String := "Unable to reach the Snow Day API right now."

/-- From `App.tsx` (`fetchRankings`): net state transition of one call.  On
success all three data fields are replaced; on failure only `summary` is
replaced; the `finally` block clears the busy flag either way. -/
def fetchRankings (isRefresh : Bool) (st : AppState) (outcome : FetchOutcome) :
    AppState :=
  let busy :=
    if isRefresh then { st with refreshing := true } else { st with loading := true }
  let after :=
    match outcome with
    | .success d =>
      { busy with
        rankings := d.rankings.getD []
        summary := d.summary.getD ""
        updatedAt := d.updated_at }
    | .failure => { busy with summary := apiErrorMessage }
  if isRefresh then { after with refreshing := false } else { after with loading := false }

/-! Concrete sample data used by scenario conjuncts, counterexamples and
witnesses. -/

/-- Sample scored resort for the ranking tie-break scenario. -/
def c1Resort (id : String) (sc : ℚ) : ScoredResort :=
  { resort_id := id, name := id, state := "NH",
    conditions := { resort_id := id, name := id, state := "NH", timestamp := 0 },
    result := { score := sc, rationale := ["baseline"], powder := false, icy := false } }

/-- Sample record exercising the scoring engine. -/
def c2rec : ConditionRecord :=
  { resort_id := "w", name := "W", state := "ME", timestamp := 3 }

/-- First of two records with the same resort and the same timestamp but
different payloads. -/
def c3r1 : ConditionRecord :=
  { resort_id := "a", name := "X", state := "NH", timestamp := 5 }

/-- Second of two records with the same resort and the same timestamp but
different payloads. -/
def c3r2 : ConditionRecord :=
  { resort_id := "a", name := "Y", state := "NH", timestamp := 5 }

/-- Older record for the freshness-convergence witness. -/
def c3w1 : ConditionRecord :=
  { resort_id := "a", name := "Old", state := "NH", timestamp := 1 }

/-- Newer record for the freshness-convergence witness. -/
def c3w2 : ConditionRecord :=
  { resort_id := "a", name := "New", state := "NH", timestamp := 2 }

/-- Sample collected record for adapter "x". -/
def c5rec1 : ConditionRecord :=
  { resort_id := "x", name := "X", state := "NH", timestamp := 1 }

/-- Sample collected record for adapter "y". -/
def c5rec2 : ConditionRecord :=
  { resort_id := "y", name := "Y", state := "VT", timestamp := 1 }

/-- Three adapters: two succeed, one fails with a timeout. -/
def c5adapters : List SourceAdapter :=
  [{ resort_id := "x", outcome := .ok c5rec1 },
   { resort_id := "y", outcome := .ok c5rec2 },
   { resort_id := "z", outcome := .error .Timeout }]

/-- The powder scenario record: 18in of 24h snow, light wind, operational. -/
def c6rec : ConditionRecord :=
  { resort_id := "k", name := "K", state := "NH", timestamp := 0,
    wind_speed := some 5, snowfall_24h := some 18, is_operational := some true }

/-- A closed resort with excellent snow metrics. -/
def c7closed : ConditionRecord :=
  { resort_id := "z", name := "Z", state := "VT", timestamp := 0,
    snowfall_24h := some 30, is_operational := some false }

/-- An open resort with no reported snow at all. -/
def c7open : ConditionRecord :=
  { resort_id := "o", name := "O", state := "VT", timestamp := 0,
    is_operational := some true }

/-- A record with every measurement absent. -/
def c8rec : ConditionRecord :=
  { resort_id := "n", name := "N", state := "ME", timestamp := 0 }

/-- A ranking whose state is not one of NH, VT, ME. -/
def c9ma : Ranking :=
  { resort_id := "m", name := "M", state := "MA", score := 50, rationale := "r",
    powder := false, icy := false,
    conditions := { resort_id := "m", name := "M", state := "MA", timestamp := 0 } }

/-- A component state holding previously displayed data. -/
def c10st : AppState :=
  { rankings := [{ resort_id := "p", name := "P", state := "NH", score := 80,
                   rationale := "r", powder := true, icy := false,
                   conditions := { resort_id := "p", name := "P", state := "NH",
                                   timestamp := 0 } }],
    summary := "old summary", updatedAt := some "t0",
    loading := false, refreshing := false }

/-! Helper lemmas. -/

/-- The baseline fall-through makes every rationale non-empty. -/
theorem withBaseline_ne_nil (fs : List String) : ScoringEngine.withBaseline fs ≠ [] := by
  unfold ScoringEngine.withBaseline
  split_ifs with h
  · simp
  · intro hn
    simp [hn] at h

/-- The rule-based fallback text is never the empty string. -/
theorem fallbackSummary_ne_empty (l : List ScoredResort) : fallbackSummary l ≠ "" := by
  cases l with
  | nil =>
    show noDataSentence ≠ ""
    decide
  | cons top rest =>
    show "Top pick: " ++ top.name ++ ". " ++ String.intercalate "; " top.result.rationale ≠ ""
    intro h
    have hlen := congrArg String.length h
    simp [String.length_append] at hlen
    exact absurd hlen.1.1.1 (by decide)

/-- The concave transform is nonnegative on nonnegative inputs. -/
theorem concave_nonneg (cap w b x : ℚ) (hcap : 0 ≤ cap) (hw : 0 ≤ w) (hb : 0 ≤ b)
    (hx : 0 ≤ x) : 0 ≤ ScoringEngine.concave cap w b x := by
  unfold ScoringEngine.concave
  split_ifs with h
  · exact mul_nonneg hw hx
  · have hcx : cap < x := not_le.mp h
    have h1 : 0 ≤ w * cap := mul_nonneg hw hcap
    have h2 : 0 ≤ b * (x - cap) := mul_nonneg hb (by linarith)
    linarith

/-- A snowfall bonus term is nonnegative on valid (nonnegative) data. -/
theorem snowTerm_nonneg (cap w b : ℚ) (hcap : 0 ≤ cap) (hw : 0 ≤ w) (hb : 0 ≤ b)
    (o : Option ℚ) (h : o.all (fun v => decide (0 ≤ v)) = true) :
    0 ≤ ScoringEngine.optTerm (ScoringEngine.concave cap w b) o := by
  cases o with
  | none => simp [ScoringEngine.optTerm]
  | some v =>
    have hv : 0 ≤ v := by
      simp only [Option.all, decide_eq_true_eq] at h
      exact h
    simpa [ScoringEngine.optTerm] using concave_nonneg cap w b v hcap hw hb hv

/-- The wind penalty never exceeds its cap. -/
theorem windPenalty_le_cap (o : Option ℚ) :
    ScoringEngine.windPenalty o ≤ ScoringEngine.windPenaltyCap := by
  cases o with
  | none =>
    show (0 : ℚ) ≤ ScoringEngine.windPenaltyCap
    norm_num [ScoringEngine.windPenaltyCap]
  | some w =>
    show ScoringEngine.windPenaltyVal w ≤ ScoringEngine.windPenaltyCap
    unfold ScoringEngine.windPenaltyVal
    split_ifs with h1 h2
    · norm_num [ScoringEngine.windPenaltyCap]
    · exact h2
    · exact le_refl _

/-- The icy penalty never exceeds its flat amount. -/
theorem icyPenalty_le_amount (r : ConditionRecord) :
    ScoringEngine.icyPenalty r ≤ ScoringEngine.icyPenaltyAmount := by
  unfold ScoringEngine.icyPenalty
  split_ifs
  · exact le_refl _
  · norm_num [ScoringEngine.icyPenaltyAmount]

/-- On a valid record, the open-resort score is strictly positive: the
baseline dominates the capped penalties, and bonuses only add. -/
theorem openScore_pos (r : ConditionRecord) (hv : validRec r = true) :
    0 < ScoringEngine.openScore r := by
  simp only [validRec, Bool.and_eq_true] at hv
  obtain ⟨⟨⟨⟨⟨⟨hw, h12⟩, h24⟩, h7⟩, hbd⟩, hl⟩, ht⟩ := hv
  have b12 : 0 ≤ ScoringEngine.snowBonus12 r.snowfall_12h :=
    snowTerm_nonneg 6 3 1 (by norm_num) (by norm_num) (by norm_num) _ h12
  have b24 : 0 ≤ ScoringEngine.snowBonus24 r.snowfall_24h :=
    snowTerm_nonneg 12 2 1 (by norm_num) (by norm_num) (by norm_num) _ h24
  have b7 : 0 ≤ ScoringEngine.snowBonus7d r.snowfall_7d :=
    snowTerm_nonneg 30 1 0 (by norm_num) (by norm_num) (by norm_num) _ h7
  have hwp := windPenalty_le_cap r.wind_speed
  have hip := icyPenalty_le_amount r
  unfold ScoringEngine.openScore
  simp only [ScoringEngine.baselineScore]
  simp only [ScoringEngine.windPenaltyCap] at hwp
  simp only [ScoringEngine.icyPenaltyAmount] at hip
  linarith

/-- Applying the freshness rule with two records of distinct timestamps is
order-independent. -/
theorem freshnessMerge_comm (o : Option ConditionRecord) (r₁ r₂ : ConditionRecord)
    (hts : r₁.timestamp ≠ r₂.timestamp) :
    freshnessMerge (freshnessMerge o r₁) r₂ = freshnessMerge (freshnessMerge o r₂) r₁ := by
  cases o with
  | none =>
    simp only [freshnessMerge]
    split_ifs <;> first | rfl | (exfalso; omega)
  | some x =>
    simp only [freshnessMerge]
    split_ifs <;> simp only [freshnessMerge] <;> split_ifs <;>
      first | rfl | (exfalso; omega)

/-- The successes of a collector run are exactly those of its adapters. -/
theorem run_filter_ok_len (l : List SourceAdapter) :
    ((Collector.run l).filter fun p => resultOk p.2).length =
      (l.filter fun a => resultOk a.outcome).length := by
  induction l with
  | nil => rfl
  | cons a t ih =>
    cases h : resultOk a.outcome <;>
      simp [Collector.run, List.filter_cons, h, ih] <;>
      simpa [Collector.run] using ih

/-- The failures of a collector run are exactly those of its adapters. -/
theorem run_filter_err_len (l : List SourceAdapter) :
    ((Collector.run l).filter fun p => !resultOk p.2).length =
      (l.filter fun a => !resultOk a.outcome).length := by
  induction l with
  | nil => rfl
  | cons a t ih =>
    cases h : resultOk a.outcome <;>
      simp [Collector.run, List.filter_cons, h, ih] <;>
      simpa [Collector.run] using ih

/-- Successes and failures of the adapter list partition it. -/
theorem filter_ok_add_err_len (l : List SourceAdapter) :
    (l.filter fun a => resultOk a.outcome).length +
      (l.filter fun a => !resultOk a.outcome).length = l.length := by
  induction l with
  | nil => rfl
  | cons a t ih =>
    cases h : resultOk a.outcome <;> simp [List.filter_cons, h] <;> omega

/-- Under distinct resort identities, each adapter's own outcome is found in
the collector's aggregate, whatever the other adapters did. -/
theorem run_lookup_eq (l : List SourceAdapter)
    (hnd : (l.map SourceAdapter.resort_id).Nodup) :
    ∀ a ∈ l, (Collector.run l).lookup a.resort_id = some a.outcome := by
  induction l with
  | nil => intro a ha; cases ha
  | cons b t ih =>
    intro a ha
    rw [List.map_cons, List.nodup_cons] at hnd
    rcases List.mem_cons.mp ha with rfl | hat
    · simp [Collector.run, List.lookup]
    · have hne : a.resort_id ≠ b.resort_id := by
        intro he
        exact hnd.1 (he ▸ List.mem_map_of_mem SourceAdapter.resort_id hat)
      have hb : (a.resort_id == b.resort_id) = false := beq_eq_false_iff_ne.mpr hne
      simpa [Collector.run, List.lookup, hb] using ih hnd.2 a hat

/-- The state-group fold distributes into per-state filters. -/
theorem groupedByState_foldl (l : List Ranking) (g : StateGroups) :
    l.foldl groupStep g =
      { NH := g.NH ++ l.filter (fun r => r.state = "NH"),
        VT := g.VT ++ l.filter (fun r => r.state = "VT"),
        ME := g.ME ++ l.filter (fun r => r.state = "ME") } := by
  induction l generalizing g with
  | nil => simp
  | cons r t ih =>
    rw [List.foldl_cons, ih]
    clear ih
    unfold groupStep
    split_ifs with h1 h2 h3 <;> simp_all [List.filter_cons]

/-! Claim theorems. -/

/-- Claim C1: for every `RankingsResponse`, the `rankings` field is the input
sequence of `ScoredResort` sorted by descending score with ties broken by
`resort_id` ascending; in particular three resorts with scores 92, 92, 75
and identifiers "b", "a", "c" come out in the order a(92), b(92), c(75). -/
theorem rankings_sorted_by_score_then_id :
    (∀ (u : Option Nat) (l : List ScoredResort) (s : String),
      (mkRankingsResponse u l s).rankings.Sorted rankLE ∧
      (mkRankingsResponse u l s).rankings.Perm l) ∧
    (mkRankingsResponse (some 0) [c1Resort "b" 92, c1Resort "a" 92, c1Resort "c" 75]
        "today").rankings.map ScoredResort.resort_id = ["a", "b", "c"] := by
  refine ⟨fun u l s => ⟨?_, ?_⟩, ?_⟩
  · simpa [mkRankingsResponse, rankResorts] using List.sorted_insertionSort rankLE l
  · simpa [mkRankingsResponse, rankResorts] using List.perm_insertionSort rankLE l
  · decide

/-- Witness for C1 at a concrete response. -/
theorem rankings_sorted_by_score_then_id_witness :
    (mkRankingsResponse (some 0) [c1Resort "c" 75] "today").rankings.Sorted rankLE ∧
    (mkRankingsResponse (some 0) [c1Resort "c" 75] "today").rankings.Perm
      [c1Resort "c" 75] :=
  rankings_sorted_by_score_then_id.1 (some 0) [c1Resort "c" 75] "today"

/-- Claim C2: `ScoringEngine.score` is deterministic (equal inputs give equal
outputs), total (a total function of the record, defined on every record of
the data model), and its rationale is never empty. -/
theorem score_deterministic_and_rationale_nonempty (r₁ r₂ : ConditionRecord)
    (h : r₁ = r₂) :
    ScoringEngine.score r₁ = ScoringEngine.score r₂ ∧
    (ScoringEngine.score r₁).rationale ≠ [] := by
  subst h
  refine ⟨rfl, ?_⟩
  show ScoringEngine.rationaleOf r₁ ≠ []
  exact withBaseline_ne_nil _

/-- Witness for C2 at a concrete record. -/
theorem score_deterministic_and_rationale_nonempty_witness :
    ScoringEngine.score c2rec = ScoringEngine.score c2rec ∧
    (ScoringEngine.score c2rec).rationale ≠ [] :=
  score_deterministic_and_rationale_nonempty c2rec c2rec rfl

/-- Counterexample to claim C3 as stated: two records for the same resort
with the same timestamp but different payloads do not converge — the last
upsert wins, so the two application orders store different records. -/
theorem upsert_order_counterexample :
    upsert (upsert emptyStore c3r1) c3r2 "a" ≠ upsert (upsert emptyStore c3r2) c3r1 "a" := by
  decide

/-- Claim C3 (amended: the two records must have distinct timestamps; equal
timestamps resolve last-writer-wins because an equal timestamp replaces):
upserting two records for the same resort in either order yields the same
store, and from the empty store the stored record is the one with the later
timestamp; the stale record is silently discarded, not an error. -/
theorem upsert_converges_to_later (s : ConditionStore) (r₁ r₂ : ConditionRecord)
    (hid : r₁.resort_id = r₂.resort_id) (hts : r₁.timestamp ≠ r₂.timestamp) :
    (∀ id, upsert (upsert s r₁) r₂ id = upsert (upsert s r₂) r₁ id) ∧
    upsert (upsert emptyStore r₁) r₂ r₁.resort_id =
      some (if r₁.timestamp ≤ r₂.timestamp then r₂ else r₁) := by
  constructor
  · intro id
    by_cases hc : id = r₂.resort_id
    · subst hc
      simpa [upsert, hid] using freshnessMerge_comm (s r₂.resort_id) r₁ r₂ hts
    · have hc1 : ¬id = r₁.resort_id := by rw [hid]; exact hc
      simp [upsert, hc, hc1]
  · simp only [upsert, hid, if_pos, emptyStore, freshnessMerge]
    split_ifs <;> rfl

/-- Witness for C3 at two concrete records with timestamps 1 and 2. -/
theorem upsert_converges_to_later_witness :
    upsert (upsert emptyStore c3w1) c3w2 c3w1.resort_id =
      some (if c3w1.timestamp ≤ c3w2.timestamp then c3w2 else c3w1) :=
  (upsert_converges_to_later emptyStore c3w1 c3w2 rfl (by decide)).2

/-- Claim C4: whatever the generative backend does — success, failure, or
timeout — the summarizer returns a non-empty string; an empty input sequence
yields the fixed "no data" sentence, and the fallback itself is a total
function that never returns an empty string. -/
theorem summarizer_total_nonempty (resorts : List ScoredResort)
    (outcome : BackendOutcome) :
    summarize resorts outcome ≠ "" ∧
    summarize [] outcome = noDataSentence ∧
    fallbackSummary resorts ≠ "" := by
  refine ⟨?_, rfl, fallbackSummary_ne_empty resorts⟩
  cases resorts with
  | nil =>
    show noDataSentence ≠ ""
    decide
  | cons top rest =>
    cases outcome with
    | ok text =>
      show (if text = "" then fallbackSummary (top :: rest) else text) ≠ ""
      split_ifs with h
      · exact fallbackSummary_ne_empty _
      · exact h
    | failure =>
      show fallbackSummary (top :: rest) ≠ ""
      exact fallbackSummary_ne_empty _
    | timeout =>
      show fallbackSummary (top :: rest) ≠ ""
      exact fallbackSummary_ne_empty _

/-- Witness for C4 at the empty resort sequence and a failing backend. -/
theorem summarizer_total_nonempty_witness :
    summarize [] BackendOutcome.failure ≠ "" ∧
    summarize [] BackendOutcome.failure = noDataSentence ∧
    fallbackSummary [] ≠ "" :=
  summarizer_total_nonempty [] BackendOutcome.failure

/-- Claim C5: a collector run over N adapters with k failures reports exactly
N − k successful records and exactly k recorded errors, and — independence of
failure domains — every adapter's own outcome appears in the aggregate keyed
by its resort, no matter what the other adapters did. -/
theorem collector_counts (adapters : List SourceAdapter)
    (hnd : (adapters.map SourceAdapter.resort_id).Nodup) :
    ((Collector.run adapters).filter fun p => resultOk p.2).length =
      adapters.length - ((adapters.filter fun a => !resultOk a.outcome)).length ∧
    ((Collector.run adapters).filter fun p => !resultOk p.2).length =
      ((adapters.filter fun a => !resultOk a.outcome)).length ∧
    ∀ a ∈ adapters, (Collector.run adapters).lookup a.resort_id = some a.outcome := by
  refine ⟨?_, run_filter_err_len adapters, run_lookup_eq adapters hnd⟩
  have h1 := run_filter_ok_len adapters
  have h2 := filter_ok_add_err_len adapters
  omega

/-- Witness for C5: three adapters, one failing, two succeeding. -/
theorem collector_counts_witness :
    ((Collector.run c5adapters).filter fun p => resultOk p.2).length =
      c5adapters.length - ((c5adapters.filter fun a => !resultOk a.outcome)).length ∧
    ((Collector.run c5adapters).filter fun p => !resultOk p.2).length =
      ((c5adapters.filter fun a => !resultOk a.outcome)).length ∧
    ∀ a ∈ c5adapters, (Collector.run c5adapters).lookup a.resort_id = some a.outcome :=
  collector_counts c5adapters (by decide)

/-- Claim C6: the `powder` and `icy` flags are never both true (icy yields to
powder by construction), and the scenario record with 18in of 24h snow, wind
5 and operational status true scores `powder = true`, `icy = false`, with a
first rationale clause that mentions the snowfall. -/
theorem powder_icy_mutually_exclusive :
    (∀ r : ConditionRecord, (ScoringEngine.score r).powder = false ∨
      (ScoringEngine.score r).icy = false) ∧
    (ScoringEngine.score c6rec).powder = true ∧
    (ScoringEngine.score c6rec).icy = false ∧
    (ScoringEngine.score c6rec).rationale.head? = some (ScoringEngine.clause24 18) ∧
    mentionsSnow (ScoringEngine.clause24 18) = true := by
  refine ⟨?_, by decide, by decide, ?_, by decide⟩
  · intro r
    by_cases hp : ScoringEngine.powderFlag r = true
    · refine Or.inr ?_
      show ScoringEngine.icyFlag r = false
      simp [ScoringEngine.icyFlag, hp]
    · refine Or.inl ?_
      show ScoringEngine.powderFlag r = false
      simpa using hp
  · have h : (ScoringEngine.score c6rec).rationale = [ScoringEngine.clause24 18] := by
      show ScoringEngine.rationaleOf c6rec = _
      norm_num [ScoringEngine.rationaleOf, ScoringEngine.withBaseline, c6rec,
        ScoringEngine.snowClauses, ScoringEngine.hazardClauses, ScoringEngine.snowBonus24,
        ScoringEngine.snowBonus12, ScoringEngine.snowBonus7d,
        ScoringEngine.optTerm, ScoringEngine.concave, ScoringEngine.sigThreshold,
        ScoringEngine.windPenaltyVal, ScoringEngine.windComfort, ScoringEngine.windPenaltyCap,
        ScoringEngine.icyFlag, ScoringEngine.lowRecentSnow, ScoringEngine.icySnowThreshold,
        ScoringEngine.freezeThaw]
    rw [h]
    rfl

/-- Witness for C6 at the powder scenario record. -/
theorem powder_icy_mutually_exclusive_witness :
    (ScoringEngine.score c6rec).powder = false ∨ (ScoringEngine.score c6rec).icy = false :=
  powder_icy_mutually_exclusive.1 c6rec

/-- Claim C7: a closed resort's rationale leads with the closure clause; it
scores strictly below every valid open resort regardless of its snow
metrics; and ranking is a permutation, so the closed resort still appears in
the rankings. -/
theorem closed_resorts_stated_and_sorted_low (rc ro : ConditionRecord)
    (hc : rc.is_operational = some false)
    (ho : ro.is_operational = some true)
    (hv : validRec ro = true) :
    (ScoringEngine.score rc).rationale.head? = some ScoringEngine.closureClause ∧
    (ScoringEngine.score rc).score < (ScoringEngine.score ro).score ∧
    (∀ (l : List ScoredResort) (x : ScoredResort), x ∈ l → x ∈ rankResorts l) := by
  refine ⟨?_, ?_, ?_⟩
  · show (ScoringEngine.rationaleOf rc).head? = _
    simp [ScoringEngine.rationaleOf, hc, ScoringEngine.withBaseline]
  · have h0 : (ScoringEngine.score rc).score = 0 := by
      simp [ScoringEngine.score, hc]
    have h1 : (ScoringEngine.score ro).score = ScoringEngine.openScore ro := by
      simp [ScoringEngine.score, ho]
    rw [h0, h1]
    exact openScore_pos ro hv
  · intro l x hx
    simpa [rankResorts] using hx

/-- Witness for C7: a closed resort with 30in of fresh snow against an open
resort with no reported snow at all. -/
theorem closed_resorts_stated_and_sorted_low_witness :
    (ScoringEngine.score c7closed).rationale.head? = some ScoringEngine.closureClause ∧
    (ScoringEngine.score c7closed).score < (ScoringEngine.score c7open).score ∧
    (∀ (l : List ScoredResort) (x : ScoredResort), x ∈ l → x ∈ rankResorts l) :=
  closed_resorts_stated_and_sorted_low c7closed c7open rfl rfl (by decide)

/-- Claim C8: an absent measurement means "not reported", never zero: every
scoring term is zero on an absent field, absent snowfall never triggers the
icy signal, an absent temperature disables the icy penalty, an absent number
renders as the em dash rather than 0, and an absent operational flag renders
as Unknown rather than Closed. -/
theorem missing_fields_not_reported :
    (ScoringEngine.snowBonus12 none = 0 ∧ ScoringEngine.snowBonus24 none = 0 ∧
      ScoringEngine.snowBonus7d none = 0 ∧ ScoringEngine.windPenalty none = 0) ∧
    (∀ r : ConditionRecord, r.snowfall_24h = none → r.snowfall_12h = none →
      ScoringEngine.lowRecentSnow r = false) ∧
    (∀ r : ConditionRecord, r.temp_min = none → ScoringEngine.icyPenalty r = 0) ∧
    (∀ s : String, formatNumber none s = emDash) ∧
    (resolveStatus none).label = "Unknown" ∧
    (resolveStatus none).label ≠ (resolveStatus (some false)).label := by
  refine ⟨⟨rfl, rfl, rfl, rfl⟩, ?_, ?_, fun s => rfl, rfl, by decide⟩
  · intro r h24 h12
    simp [ScoringEngine.lowRecentSnow, h24, h12]
  · intro r htm
    have hft : ScoringEngine.freezeThaw r = false := by
      cases h2 : r.temp_max <;> simp [ScoringEngine.freezeThaw, htm, h2]
    simp [ScoringEngine.icyPenalty, ScoringEngine.icyFlag, hft]

/-- Witness for C8 at the all-absent record. -/
theorem missing_fields_not_reported_witness :
    ScoringEngine.lowRecentSnow c8rec = false ∧ ScoringEngine.icyPenalty c8rec = 0 :=
  ⟨missing_fields_not_reported.2.1 c8rec rfl rfl,
   missing_fields_not_reported.2.2.1 c8rec rfl⟩

/-- Claim C9: in the All Resorts view with the `all` filter, the grouped
display holds exactly the NH, VT and ME resorts in order, and any ranking
whose state is none of those three is silently omitted. -/
theorem all_view_drops_unknown_states (l : List Ranking) :
    (groupedByState l).NH = l.filter (fun r => r.state = "NH") ∧
    (groupedByState l).VT = l.filter (fun r => r.state = "VT") ∧
    (groupedByState l).ME = l.filter (fun r => r.state = "ME") ∧
    (∀ r : Ranking, r.state ≠ "NH" → r.state ≠ "VT" → r.state ≠ "ME" →
      r ∉ allViewDisplayed l) := by
  have hg : groupedByState l =
      { NH := l.filter (fun r => r.state = "NH"),
        VT := l.filter (fun r => r.state = "VT"),
        ME := l.filter (fun r => r.state = "ME") } := by
    unfold groupedByState
    simpa using groupedByState_foldl l { NH := [], VT := [], ME := [] }
  refine ⟨by rw [hg], by rw [hg], by rw [hg], ?_⟩
  intro r h1 h2 h3 hmem
  have hd : allViewDisplayed l =
      l.filter (fun r => r.state = "NH") ++ l.filter (fun r => r.state = "VT") ++
        l.filter (fun r => r.state = "ME") := by
    unfold allViewDisplayed
    rw [hg]
  rw [hd] at hmem
  simp only [List.mem_append, List.mem_filter, decide_eq_true_eq] at hmem
  rcases hmem with (⟨_, hs⟩ | ⟨_, hs⟩) | ⟨_, hs⟩
  · exact h1 hs
  · exact h2 hs
  · exact h3 hs

/-- Witness for C9: a Massachusetts resort is omitted from the grouped
display. -/
theorem all_view_drops_unknown_states_witness :
    c9ma ∉ allViewDisplayed [c9ma] :=
  (all_view_drops_unknown_states [c9ma]).2.2.2 c9ma (by decide) (by decide) (by decide)

/-- Claim C10: on a failed fetch (network error or non-JSON body), the net
state transition keeps the displayed rankings and the `updated_at` value
unchanged and only replaces the summary with the fixed error sentence. -/
theorem fetch_failure_keeps_rankings (isRefresh : Bool) (st : AppState) :
    (fetchRankings isRefresh st .failure).rankings = st.rankings ∧
    (fetchRankings isRefresh st .failure).updatedAt = st.updatedAt ∧
    (fetchRankings isRefresh st .failure).summary = apiErrorMessage := by
  cases isRefresh <;> simp [fetchRankings]

/-- Witness for C10 at a concrete state with previously displayed data. -/
theorem fetch_failure_keeps_rankings_witness :
    (fetchRankings false c10st .failure).rankings = c10st.rankings ∧
    (fetchRankings false c10st .failure).updatedAt = c10st.updatedAt ∧
    (fetchRankings false c10st .failure).summary = apiErrorMessage :=
  fetch_failure_keeps_rankings false c10st

end SnowDay
